import Mathlib

/-!
# Verification of the Farmers-Market-Place payment/escrow flow

Shallow embedding of the backend's payment-and-fulfillment reconciliation
slice (`src/backend/src/routes.rs`, `src/backend/src/db.rs`,
`src/backend/src/mpesa.rs`).  The relational store is modelled as an
explicit record of rows (`DBState`); each Rust handler or `db::` function
becomes a pure Lean function from state (and request data) to state and
response.  Monetary `f64` amounts are modelled as `Rat`; `i32` as `Int`;
SQL `CURRENT_TIMESTAMP` as the `now : Nat` field of the state.
-/

namespace FarmersMarket

/-- One row of the `products` table (the columns the payment flow reads:
`id`, `vendor_id`, `price`, `quantity`). -/
structure Product where
  id : Int
  vendor_id : Int
  price : Rat
  quantity : Int
deriving Repr, DecidableEq

/-- One row of `cart_items` (`id`, `user_id`, `product_id`, `quantity`). -/
structure CartItem where
  id : Int
  user_id : Int
  product_id : Int
  quantity : Int
deriving Repr, DecidableEq

/-- One row of `shipping_orders` (the columns this slice touches). -/
structure ShippingOrder where
  id : Int
  customer_id : Int
  product_id : Int
  vendor_id : Int
  quantity : Int
  total_amount : Rat
  shipping_status : String
  tracking_number : Option String
  shipping_address : String
  customer_verified : Bool
  payment_released : Bool
  verification_requested_at : Option Nat
deriving Repr, DecidableEq

/-- One row of `payment_transactions`. -/
structure PaymentTransaction where
  id : Int
  user_id : Int
  checkout_request_id : String
  merchant_request_id : String
  mpesa_receipt_number : Option String
  phone_number : String
  amount : Rat
  status : String
  transaction_date : Option String
  cart_item_ids : Option String
deriving Repr, DecidableEq

/-- The columns of the `users` table this slice touches: the primary key
and the `wallet_balance FLOAT8 NOT NULL DEFAULT 0.0` column. -/
structure UserRow where
  id : Int
  wallet_balance : Rat
deriving Repr, DecidableEq

/-- The relational store.  `next_order_id` / `next_tx_id` model the SQL
`SERIAL` id sequences; `now` models `CURRENT_TIMESTAMP`. -/
structure DBState where
  users : List UserRow
  products : List Product
  cart_items : List CartItem
  shipping_orders : List ShippingOrder
  transactions : List PaymentTransaction
  next_order_id : Int
  next_tx_id : Int
  now : Nat
deriving Repr, DecidableEq

/-! ## Persistence gateway (`db.rs`) -/

/-- `db::get_payment_transaction_by_checkout_request_id`:
`SELECT ... FROM payment_transactions WHERE checkout_request_id = $1`
with `fetch_one` (first matching row, error if none). -/
def get_payment_transaction_by_checkout_request_id (s : DBState)
    (checkout_request_id : String) : Option PaymentTransaction :=
  s.transactions.find? (fun t => t.checkout_request_id == checkout_request_id)

/-- `db::update_payment_transaction`:
`UPDATE payment_transactions SET status = $1, mpesa_receipt_number = $2,
transaction_date = $3, updated_at = CURRENT_TIMESTAMP
WHERE checkout_request_id = $4`.  No guard on the current status. -/
def update_payment_transaction (s : DBState) (checkout_request_id : String)
    (status : String) (mpesa_receipt_number : Option String)
    (transaction_date : Option String) : DBState :=
  { s with transactions := s.transactions.map (fun t =>
      if t.checkout_request_id == checkout_request_id then
        { t with status := status,
                 mpesa_receipt_number := mpesa_receipt_number,
                 transaction_date := transaction_date }
      else t) }

/-- `db::get_cart_items`: `SELECT ... FROM cart_items ci JOIN products p ON
ci.product_id = p.id WHERE ci.user_id = $1` — the inner join drops cart
lines whose product row is missing. -/
def get_cart_items (s : DBState) (user_id : Int) : List CartItem :=
  s.cart_items.filter (fun ci =>
    ci.user_id == user_id && s.products.any (fun p => p.id == ci.product_id))

/-- `db::remove_from_cart_with_user`:
`DELETE FROM cart_items WHERE id = $1 AND user_id = $2`. -/
def remove_from_cart_with_user (s : DBState) (cart_item_id user_id : Int) :
    DBState :=
  { s with cart_items := s.cart_items.filter (fun ci =>
      !(ci.id == cart_item_id && ci.user_id == user_id)) }

/-- `db::deduct_product_inventory`:
`UPDATE products SET quantity = GREATEST(0, quantity - $1) WHERE id = $2`. -/
def deduct_product_inventory (s : DBState) (product_id quantity_to_deduct : Int) :
    DBState :=
  { s with products := s.products.map (fun p =>
      if p.id == product_id then
        { p with quantity := max 0 (p.quantity - quantity_to_deduct) }
      else p) }

/-- `SELECT username FROM users WHERE id = $1` with `fetch_one` succeeds
exactly when such a user row exists. -/
def user_exists (s : DBState) (user_id : Int) : Bool :=
  s.users.any (fun u => u.id == user_id)

/-- `db::create_shipping_order`.  Looks up the product (error if missing),
inserts the order row (`shipping_status` takes its column default
`'pending'`; `customer_verified`/`payment_released` default false), then
fetches the two usernames (error if either user row is missing — note the
insert has already happened by then, there is no enclosing transaction),
then calls `deduct_product_inventory`, whose error is logged and ignored.
`deduct_fails : Bool` injects that ignored failure.  Returns the new state
and `some order` on success, `none` on error. -/
def create_shipping_order (deduct_fails : Bool) (s : DBState)
    (customer_id product_id quantity : Int) (shipping_address : String) :
    DBState × Option ShippingOrder :=
  match s.products.find? (fun p => p.id == product_id) with
  | none => (s, none)
  | some p =>
    let total_amount := p.price * (quantity : Rat)
    let order : ShippingOrder :=
      { id := s.next_order_id
        customer_id := customer_id
        product_id := product_id
        vendor_id := p.vendor_id
        quantity := quantity
        total_amount := total_amount
        shipping_status := "pending"
        tracking_number := none
        shipping_address := shipping_address
        customer_verified := false
        payment_released := false
        verification_requested_at := none }
    let s1 := { s with shipping_orders := s.shipping_orders ++ [order],
                       next_order_id := s.next_order_id + 1 }
    if user_exists s1 customer_id && user_exists s1 p.vendor_id then
      let s2 := if deduct_fails then s1
                else deduct_product_inventory s1 product_id quantity
      (s2, some order)
    else (s1, none)

/-- `db::create_payment_transaction`: inserts a `payment_transactions` row.
The table schema is not under `src/` (only the insert is); per the spec the
row is persisted with status `"initiated"` and null receipt/date. -/
def create_payment_transaction (s : DBState) (user_id : Int)
    (checkout_request_id merchant_request_id phone_number : String)
    (amount : Rat) (cart_item_ids : Option String) : DBState :=
  { s with
    transactions := s.transactions ++ [{
      id := s.next_tx_id
      user_id := user_id
      checkout_request_id := checkout_request_id
      merchant_request_id := merchant_request_id
      mpesa_receipt_number := none
      phone_number := phone_number
      amount := amount
      status := "initiated"
      transaction_date := none
      cart_item_ids := cart_item_ids }]
    next_tx_id := s.next_tx_id + 1 }

/-! ## M-Pesa callback payload (`mpesa.rs`) -/

/-- A `serde_json::Value` as it appears in callback metadata: the code only
distinguishes strings (`as_str`) and numbers (`as_f64`). -/
inductive MetaValue
  | str (s : String)
  | num (q : Rat)
  | other
deriving Repr, DecidableEq

/-- `Value::as_str`. -/
def MetaValue.as_str : MetaValue → Option String
  | .str s => some s
  | _ => none

/-- `Value::as_f64` (numbers only; strings are not coerced). -/
def MetaValue.as_f64 : MetaValue → Option Rat
  | .num q => some q
  | _ => none

/-- `mpesa::MetadataItem`: `{ name : String, value : Option<Value> }`. -/
structure MetadataItem where
  name : String
  value : Option MetaValue
deriving Repr, DecidableEq

/-- `mpesa::CallbackMetadata`: `{ item : Vec<MetadataItem> }`. -/
structure CallbackMetadata where
  item : List MetadataItem
deriving Repr, DecidableEq

/-- `mpesa::StkCallback`. -/
structure StkCallback where
  merchant_request_i_d : String
  checkout_request_i_d : String
  result_code : Int
  result_desc : String
  callback_metadata : Option CallbackMetadata
deriving Repr, DecidableEq

/-- `mpesa::extract_callback_data`: folds over the metadata items keeping,
for each of the three names, the (typed) value of the last item with that
name; returns the triple only when all three ended up present. -/
def extract_callback_data (callback : StkCallback) :
    Option (String × String × Rat) :=
  match callback.callback_metadata with
  | none => none
  | some metadata =>
    let found := metadata.item.foldl
      (fun (acc : Option String × Option String × Option Rat) it =>
        if it.name == "MpesaReceiptNumber" then
          (it.value.bind MetaValue.as_str, acc.2.1, acc.2.2)
        else if it.name == "TransactionDate" then
          (acc.1, it.value.bind MetaValue.as_str, acc.2.2)
        else if it.name == "Amount" then
          (acc.1, acc.2.1, it.value.bind MetaValue.as_f64)
        else acc)
      (none, none, none)
    match found with
    | (some receipt, some date, some amt) => some (receipt, date, amt)
    | _ => none

/-! ## Phone validation (`routes.rs`)

Rust's `str` methods are modelled by structural recursion over the
character list of the string (Lean's own `String.startsWith`, `splitOn`,
`trim`, `toLower` are byte-position loops that the kernel cannot evaluate;
the list versions below have the same semantics on our inputs). -/

/-- `phone.replace(&[' ', '-', '(', ')'][..], "")`. -/
def clean_kenyan_phone (phone : String) : List Char :=
  phone.toList.filter (fun c =>
    !(c == ' ' || c == '-' || c == '(' || c == ')'))

/-- `routes::is_valid_kenyan_phone`. -/
def is_valid_kenyan_phone (phone : String) : Bool :=
  let clean_phone := clean_kenyan_phone phone
  if "07".toList.isPrefixOf clean_phone && clean_phone.length == 10 then
    clean_phone.all Char.isDigit
  else if "254".toList.isPrefixOf clean_phone && clean_phone.length == 12 then
    clean_phone.all Char.isDigit
  else if "+254".toList.isPrefixOf clean_phone && clean_phone.length == 13 then
    (clean_phone.drop 1).all Char.isDigit
  else
    false

/-- `routes::format_kenyan_phone`. -/
def format_kenyan_phone (phone : String) : String :=
  let clean_phone := clean_kenyan_phone phone
  if "07".toList.isPrefixOf clean_phone then
    String.mk ("254".toList ++ clean_phone.drop 1)
  else if "+254".toList.isPrefixOf clean_phone then
    String.mk (clean_phone.drop 1)
  else if "254".toList.isPrefixOf clean_phone then
    String.mk clean_phone
  else
    String.mk ("254".toList ++ clean_phone)

/-! ## Snapshot parsing (`routes.rs`, inside `mpesa_callback`) -/

/-- Rust `str::split(',')`: every maximal (possibly empty) run between
commas, in order. -/
def splitOnComma : List Char → List (List Char)
  | [] => [[]]
  | c :: rest =>
    match splitOnComma rest with
    | [] => [[c]]
    | cur :: others =>
      if c == ',' then [] :: cur :: others else (c :: cur) :: others

/-- Rust `str::trim`: drop leading and trailing whitespace. -/
def trimChars (l : List Char) : List Char :=
  ((l.dropWhile Char.isWhitespace).reverse.dropWhile Char.isWhitespace).reverse

/-- Decimal magnitude of a digit string. -/
def digitsVal (l : List Char) : Nat :=
  l.foldl (fun a c => a * 10 + (c.toNat - 48)) 0

/-- Rust `str::parse::<i32>()` as an `Option Int`: optional sign, at least
one ASCII digit, value within the `i32` range. -/
def parse_i32 (l : List Char) : Option Int :=
  let core := if l.head? == some '+' || l.head? == some '-' then l.drop 1 else l
  if core.length == 0 || !(core.all Char.isDigit) then none
  else
    let mag : Int := (digitsVal core : Int)
    let n : Int := if l.head? == some '-' then -mag else mag
    if -(2 ^ 31) ≤ n ∧ n ≤ 2 ^ 31 - 1 then some n else none

/-- `cart_item_ids_str.split(',').filter_map(|id| id.trim().parse().ok())`. -/
def parse_cart_item_ids (snapshot : String) : List Int :=
  (splitOnComma snapshot.toList).filterMap (fun t => parse_i32 (trimChars t))

/-- The filter step of `mpesa_callback`: restrict the user's current cart
to the snapshotted line ids, or keep all lines when no snapshot was
stored. -/
def select_items (transaction : PaymentTransaction)
    (all_cart_items : List CartItem) : List CartItem :=
  match transaction.cart_item_ids with
  | some cart_item_ids_str =>
    let selected_ids := parse_cart_item_ids cart_item_ids_str
    all_cart_items.filter (fun item => selected_ids.contains item.id)
  | none => all_cart_items

/-! ## The payment callback handler (`routes::mpesa_callback`) -/

/-- The fixed acknowledgement the handler returns:
`HttpResponse::Ok().json(json!({"ResultCode": 0, "ResultDesc": "Accepted"}))`. -/
structure CallbackAck where
  http_status : Nat
  result_code : Int
  result_desc : String
deriving Repr, DecidableEq

def mpesa_ack : CallbackAck :=
  { http_status := 200, result_code := 0, result_desc := "Accepted" }

/-- Failure injection for the database calls whose errors `mpesa_callback`
logs and swallows.  `create_order_fails` / `remove_fails` are keyed by cart
item id, `deduct_fails` by product id. -/
structure FailOracle where
  update_tx_fails : Bool
  get_cart_fails : Bool
  create_order_fails : Int → Bool
  remove_fails : Int → Bool
  deduct_fails : Int → Bool

/-- The oracle under which every database call succeeds. -/
def noFail : FailOracle :=
  { update_tx_fails := false
    get_cart_fails := false
    create_order_fails := fun _ => false
    remove_fails := fun _ => false
    deduct_fails := fun _ => false }

/-- `routes::mpesa_callback`.  Looks up the transaction by checkout-request
id (acknowledging and stopping if absent), then on result code 0 marks the
transaction completed, creates one shipping order per selected cart line
and removes those lines; on a non-zero result code maps 1032 to
`"cancelled"` and everything else to `"failed"`.  Always returns
`mpesa_ack`.  The current status of the transaction is never consulted. -/
def mpesa_callback (o : FailOracle) (s : DBState) (callback : StkCallback) :
    DBState × CallbackAck :=
  let checkout_request_id := callback.checkout_request_i_d
  match get_payment_transaction_by_checkout_request_id s checkout_request_id with
  | none => (s, mpesa_ack)
  | some transaction =>
    if callback.result_code == 0 then
      let extracted := extract_callback_data callback
      let mpesa_receipt : Option String := extracted.map (fun d => d.1)
      let transaction_date : Option String := extracted.map (fun d => d.2.1)
      let s1 := if o.update_tx_fails then s
                else update_payment_transaction s checkout_request_id
                       "completed" mpesa_receipt transaction_date
      if o.get_cart_fails then (s1, mpesa_ack)
      else
        let all_cart_items := get_cart_items s1 transaction.user_id
        let items_to_process := select_items transaction all_cart_items
        let s2 := items_to_process.foldl (fun st item =>
          if o.create_order_fails item.id then st
          else (create_shipping_order (o.deduct_fails item.product_id) st
                  transaction.user_id item.product_id item.quantity
                  "Default shipping address - please update in your orders").1) s1
        let s3 := items_to_process.foldl (fun st item =>
          if o.remove_fails item.id then st
          else remove_from_cart_with_user st item.id transaction.user_id) s2
        (s3, mpesa_ack)
    else
      let status := if callback.result_code == 1032 then "cancelled" else "failed"
      let s1 := if o.update_tx_fails then s
                else update_payment_transaction s checkout_request_id status none none
      (s1, mpesa_ack)

/-! ## Fulfillment state machine (`routes.rs` / `db.rs`) -/

/-- `db::update_shipping_status`: sets the status string verbatim (and the
tracking number when one is supplied). -/
def update_shipping_status (s : DBState) (order_id : Int)
    (shipping_status : String) (tracking_number : Option String) : DBState :=
  { s with shipping_orders := s.shipping_orders.map (fun o =>
      if o.id == order_id then
        match tracking_number with
        | some tracking =>
          { o with shipping_status := shipping_status,
                   tracking_number := some tracking }
        | none => { o with shipping_status := shipping_status }
      else o) }

/-- `db::request_delivery_verification`:
`UPDATE shipping_orders SET verification_requested_at = CURRENT_TIMESTAMP
WHERE id = $1 AND shipping_status = 'delivered'` — note the exact,
case-sensitive match on the stored status string. -/
def request_delivery_verification (s : DBState) (order_id : Int) : DBState :=
  { s with shipping_orders := s.shipping_orders.map (fun o =>
      if o.id == order_id && o.shipping_status == "delivered" then
        { o with verification_requested_at := some s.now }
      else o) }

/-- The row transformation of `update_shipping_status`, named for use in
`find?` rewriting. -/
def set_status_tracking (status : String) (tracking : Option String)
    (x : ShippingOrder) : ShippingOrder :=
  match tracking with
  | some tr => { x with shipping_status := status, tracking_number := some tr }
  | none => { x with shipping_status := status }

/-- The row transformation of `request_delivery_verification`. -/
def stamp_verification (t : Nat) (x : ShippingOrder) : ShippingOrder :=
  { x with verification_requested_at := some t }

/-- Outcome of a non-webhook route. -/
inductive RouteStatus
  | ok
  | notFound
  | forbidden
  | serverError
deriving Repr, DecidableEq

/-- `routes::update_shipping_status_route` (after vendor authentication):
ownership check, verbatim status update, then — only when the requested
status lowercases to `"delivered"` — a verification-request stamp whose
own SQL requires the stored status to be exactly `"delivered"`. -/
def update_shipping_status_route (s : DBState) (vendor_id order_id : Int)
    (shipping_status : String) (tracking_number : Option String) :
    DBState × RouteStatus :=
  match s.shipping_orders.find? (fun o => o.id == order_id) with
  | none => (s, .notFound)
  | some order =>
    if order.vendor_id ≠ vendor_id then (s, .forbidden)
    else
      let s1 := update_shipping_status s order_id shipping_status tracking_number
      let s2 := if shipping_status.toList.map Char.toLower
                    == "delivered".toList then
                  request_delivery_verification s1 order_id
                else s1
      (s2, .ok)

/-! ## Escrow settlement and wallet (`db.rs` / `routes.rs`) -/

/-- `UPDATE users SET wallet_balance = wallet_balance + $1 WHERE id = $2`. -/
def credit_wallet (s : DBState) (user_id : Int) (amount : Rat) : DBState :=
  { s with users := s.users.map (fun u =>
      if u.id == user_id then
        { u with wallet_balance := u.wallet_balance + amount }
      else u) }

/-- `UPDATE users SET wallet_balance = wallet_balance - $1 WHERE id = $2`. -/
def debit_wallet (s : DBState) (user_id : Int) (amount : Rat) : DBState :=
  { s with users := s.users.map (fun u =>
      if u.id == user_id then
        { u with wallet_balance := u.wallet_balance - amount }
      else u) }

/-- `db::verify_delivery_and_release_payment`: looks the order up, rejects
a non-owning customer, returns `Ok` without any write when
`payment_released` is already true, and otherwise — inside one database
transaction, modelled here as a single state step — flips
`customer_verified` and `payment_released` to true and credits the order's
`total_amount` to the vendor's wallet. -/
def verify_delivery_and_release_payment (s : DBState)
    (order_id customer_id : Int) : DBState × Except Unit Unit :=
  match s.shipping_orders.find? (fun o => o.id == order_id) with
  | none => (s, .error ())
  | some order =>
    if order.customer_id ≠ customer_id then (s, .error ())
    else if order.payment_released then (s, .ok ())
    else
      let s1 := { s with shipping_orders := s.shipping_orders.map (fun o =>
          if o.id == order_id then
            { o with customer_verified := true, payment_released := true }
          else o) }
      let s2 := credit_wallet s1 order.vendor_id order.total_amount
      (s2, .ok ())

/-- Outcome of `routes::verify_delivery_route`. -/
inductive VerifyOutcome
  | verifiedOk
  | disputeRecorded
  | serverError
deriving Repr, DecidableEq

/-- `routes::verify_delivery_route` (after customer authentication). -/
def verify_delivery_route (s : DBState) (customer_id order_id : Int)
    (verified : Bool) : DBState × VerifyOutcome :=
  if verified then
    match verify_delivery_and_release_payment s order_id customer_id with
    | (s1, .ok _) => (s1, .verifiedOk)
    | (s1, .error _) => (s1, .serverError)
  else (s, .disputeRecorded)

/-- `db::get_wallet_balance`: `SELECT wallet_balance FROM users WHERE id = $1`,
`fetch_one`. -/
def get_wallet_balance (s : DBState) (user_id : Int) : Option Rat :=
  (s.users.find? (fun u => u.id == user_id)).map (fun u => u.wallet_balance)

/-- `db::process_wallet_withdrawal`: reads the balance, errors when
`current_balance < amount`, otherwise debits and returns the new balance. -/
def process_wallet_withdrawal (s : DBState) (user_id : Int) (amount : Rat) :
    DBState × Option Rat :=
  match get_wallet_balance s user_id with
  | none => (s, none)
  | some current_balance =>
    if current_balance < amount then (s, none)
    else (debit_wallet s user_id amount, some (current_balance - amount))

/-- Outcome of `routes::withdraw_wallet_route`. -/
inductive WithdrawOutcome
  | minimumRejected
  | invalidPhone
  | success (new_balance : Rat)
  | insufficientOrFailed
deriving Repr, DecidableEq

/-- `routes::withdraw_wallet_route` (after vendor authentication): rejects
amounts below KSh 10, rejects invalid phone numbers, then runs the
withdrawal. -/
def withdraw_wallet_route (s : DBState) (user_id : Int) (amount : Rat)
    (mpesa_number : String) : DBState × WithdrawOutcome :=
  if amount < 10 then (s, .minimumRejected)
  else if !(is_valid_kenyan_phone mpesa_number) then (s, .invalidPhone)
  else
    match process_wallet_withdrawal s user_id amount with
    | (s1, some new_balance) => (s1, .success new_balance)
    | (s1, none) => (s1, .insufficientOrFailed)

/-! ## Checkout (`routes::checkout` / `routes::demo_checkout`) -/

/-- Behaviour of the external STK-push gateway for one checkout request:
not configured (demo fallback), a successful push (with the provider's
response fields), or a push failure. -/
inductive GatewayBehavior
  | unconfigured
  | pushOk (checkout_request_i_d merchant_request_i_d response_code : String)
  | pushErr

/-- Outcome of `routes::checkout`. -/
inductive CheckoutOutcome
  | invalidPhone
  | invalidAmount
  | emptyCart
  | noValidItems
  | initiated (transaction_id : String)
  | pendingPush (transaction_id : String)
  | demoCompleted
  | gatewayFailed
deriving Repr, DecidableEq

/-- `routes::demo_checkout`: synchronously creates one shipping order per
selected cart line (creation errors are logged and ignored) and then
removes those lines from the cart. -/
def demo_checkout (s : DBState) (user_id : Int)
    (cart_items : List CartItem) : DBState :=
  let s1 := cart_items.foldl (fun st item =>
    (create_shipping_order false st user_id item.product_id item.quantity
      "Default shipping address - please update in your orders").1) s
  cart_items.foldl (fun st item =>
    remove_from_cart_with_user st item.id user_id) s1

/-- `routes::checkout` (after authentication): phone validation, minimum
amount check, cart load, restriction to the selected line ids, then either
the demo fallback or an STK push followed by persisting an `"initiated"`
transaction with the snapshotted comma-joined line ids. -/
def checkout (gw : GatewayBehavior) (s : DBState) (user_id : Int)
    (mpesa_number : String) (total_amount : Rat)
    (selected_items : Option (List Int)) : DBState × CheckoutOutcome :=
  if !(is_valid_kenyan_phone mpesa_number) then (s, .invalidPhone)
  else if total_amount < 1 then (s, .invalidAmount)
  else
    let all_cart_items := get_cart_items s user_id
    if all_cart_items.isEmpty then (s, .emptyCart)
    else
      let cart_items : List CartItem := match selected_items with
        | some selected =>
          all_cart_items.filter (fun item => selected.contains item.id)
        | none => all_cart_items
      if cart_items.isEmpty then (s, .noValidItems)
      else if total_amount < 1 then (s, .invalidAmount)
      else
        match gw with
        | .unconfigured => (demo_checkout s user_id cart_items, .demoCompleted)
        | .pushErr => (s, .gatewayFailed)
        | .pushOk checkout_request_i_d merchant_request_i_d response_code =>
          let cart_item_ids_str : String := match selected_items with
            | some selected =>
              String.intercalate "," (selected.map toString)
            | none =>
              String.intercalate "," (cart_items.map (fun item => toString item.id))
          let s1 := create_payment_transaction s user_id checkout_request_i_d
                      merchant_request_i_d (format_kenyan_phone mpesa_number)
                      total_amount (some cart_item_ids_str)
          if response_code == "0" then (s1, .initiated checkout_request_i_d)
          else (s1, .pendingPush checkout_request_i_d)

/-! ## Metadata extraction, decomposed per field -/

/-- The string value of the last metadata item named `field` (absent or
mistyped values count as absent), as the fold in `extract_callback_data`
computes it. -/
def last_named_str (items : List MetadataItem) (field : String) : Option String :=
  items.foldl (fun a it =>
    if it.name == field then it.value.bind MetaValue.as_str else a) none

/-- The numeric value of the last metadata item named `field`. -/
def last_named_num (items : List MetadataItem) (field : String) : Option Rat :=
  items.foldl (fun a it =>
    if it.name == field then it.value.bind MetaValue.as_f64 else a) none

/-! ## Concrete rows and states used as witnesses and counterexamples -/

def exCustomer : UserRow := { id := 1, wallet_balance := 0 }

def exVendor : UserRow := { id := 2, wallet_balance := 50 }

def exProduct : Product := { id := 10, vendor_id := 2, price := 5, quantity := 3 }

def exCartItem : CartItem := { id := 100, user_id := 1, product_id := 10, quantity := 2 }

/-- A transaction already in the terminal status `"cancelled"`, with cart
line 100 snapshotted. -/
def exTxCancelled : PaymentTransaction :=
  { id := 7, user_id := 1, checkout_request_id := "crid1",
    merchant_request_id := "m1", mpesa_receipt_number := none,
    phone_number := "254700000000", amount := 10, status := "cancelled",
    transaction_date := none, cart_item_ids := some "100" }

def exState : DBState :=
  { users := [exCustomer, exVendor], products := [exProduct],
    cart_items := [exCartItem], shipping_orders := [],
    transactions := [exTxCancelled], next_order_id := 1, next_tx_id := 8,
    now := 1000 }

/-- A success callback for the cancelled transaction's checkout-request id
(re-delivery after the transaction already reached a terminal status). -/
def exCbSuccess : StkCallback :=
  { merchant_request_i_d := "m1", checkout_request_i_d := "crid1",
    result_code := 0, result_desc := "ok", callback_metadata := none }

/-- A failure callback (result code 1) for the same checkout-request id. -/
def exCbFailed : StkCallback :=
  { merchant_request_i_d := "m1", checkout_request_i_d := "crid1",
    result_code := 1, result_desc := "no", callback_metadata := none }

/-- A callback whose checkout-request id matches no stored transaction. -/
def exCbUnknown : StkCallback :=
  { merchant_request_i_d := "m9", checkout_request_i_d := "nosuch",
    result_code := 0, result_desc := "ok", callback_metadata := none }

/-- A pending shipping order owned by vendor 2. -/
def exOrderPending : ShippingOrder :=
  { id := 50, customer_id := 1, product_id := 10, vendor_id := 2,
    quantity := 2, total_amount := 10, shipping_status := "pending",
    tracking_number := none, shipping_address := "addr",
    customer_verified := false, payment_released := false,
    verification_requested_at := none }

def exStateOrder : DBState :=
  { users := [exCustomer, exVendor], products := [exProduct],
    cart_items := [], shipping_orders := [exOrderPending],
    transactions := [], next_order_id := 51, next_tx_id := 1, now := 1000 }

/-- A state like `exState` but whose transaction is `"completed"` and whose
cart no longer holds the snapshotted line (the normal situation right
after a first successful callback). -/
def exTxCompleted : PaymentTransaction :=
  { exTxCancelled with status := "completed" }

def exStateSettled : DBState :=
  { exState with cart_items := [], transactions := [exTxCompleted] }

/-- A success callback whose metadata has the receipt typed correctly but
`TransactionDate` as a number (as the live gateway sends it), which
`as_str` rejects. -/
def exCbMistyped : StkCallback :=
  { merchant_request_i_d := "m1", checkout_request_i_d := "crid1",
    result_code := 0, result_desc := "ok",
    callback_metadata := some { item := [
      { name := "MpesaReceiptNumber", value := some (MetaValue.str "R1") },
      { name := "TransactionDate", value := some (MetaValue.num 20240101) },
      { name := "Amount", value := some (MetaValue.num 10) } ] } }

/-- Second product and cart line for the two-line cart scenario. -/
def exProduct2 : Product := { id := 11, vendor_id := 2, price := 7, quantity := 4 }

def exCartItem2 : CartItem := { id := 101, user_id := 1, product_id := 11, quantity := 1 }

/-- A pending transaction whose snapshot covers only cart line 100. -/
def exTxInitiated : PaymentTransaction :=
  { id := 9, user_id := 1, checkout_request_id := "crid2",
    merchant_request_id := "m2", mpesa_receipt_number := none,
    phone_number := "254700000000", amount := 10, status := "initiated",
    transaction_date := none, cart_item_ids := some "100" }

/-- Two cart lines, snapshot covering only the first. -/
def exStateTwo : DBState :=
  { users := [exCustomer, exVendor], products := [exProduct, exProduct2],
    cart_items := [exCartItem, exCartItem2], shipping_orders := [],
    transactions := [exTxInitiated], next_order_id := 1, next_tx_id := 10,
    now := 1000 }

/-- A success callback for the snapshotted transaction `"crid2"`. -/
def exCbSuccess2 : StkCallback :=
  { merchant_request_i_d := "m2", checkout_request_i_d := "crid2",
    result_code := 0, result_desc := "ok", callback_metadata := none }

/-- The three accepted formats exactly as the spec lists them, read on the
raw string: `07XXXXXXXX` (10 digits), `254XXXXXXXXX` (12 digits),
`+254XXXXXXXXX` ('+' plus 12 digits).  (Spec-side definition, to be
compared with `is_valid_kenyan_phone`.) -/
def matches_spec_format (phone : String) : Bool :=
  ("07".toList.isPrefixOf phone.toList && phone.toList.length == 10
      && phone.toList.all Char.isDigit)
    || ("254".toList.isPrefixOf phone.toList && phone.toList.length == 12
      && phone.toList.all Char.isDigit)
    || ("+254".toList.isPrefixOf phone.toList && phone.toList.length == 13
      && (phone.toList.drop 1).all Char.isDigit)

/-! ## Helper lemmas -/

/-- `find?` through a conditional row update: when the update function
preserves the searched-for predicate, searching the updated table finds
the (conditionally updated) row the original search found. -/
theorem find?_map_ite {α : Type} (p c : α → Bool) (f : α → α)
    (hp : ∀ a, p (f a) = p a) :
    ∀ l : List α,
      (l.map (fun a => if c a then f a else a)).find? p
        = (l.find? p).map (fun a => if c a then f a else a) := by
  intro l
  induction l with
  | nil => rfl
  | cons a t ih =>
    by_cases hc : c a = true
    · cases hpa : p a
      · have hpf : p (if c a then f a else a) = false := by
          rw [hc]; simpa [hp] using hpa
        simp [List.find?_cons, hpf, hpa, ih]
      · have hpf : p (if c a then f a else a) = true := by
          rw [hc]; simpa [hp] using hpa
        simp [List.find?_cons, hpf, hpa]
    · have hc' : c a = false := by simpa using hc
      cases hpa : p a
      · have hpf : p (if c a then f a else a) = false := by rw [hc']; simpa using hpa
        simp [List.find?_cons, hpf, hpa, ih]
      · have hpf : p (if c a then f a else a) = true := by rw [hc']; simpa using hpa
        simp [List.find?_cons, hpf, hpa]

/-- De-Morgan-style Bool identity used to merge successive cart filters. -/
theorem bool_notand_merge (x y u : Bool) :
    ((!(y && u)) && (!(x && u))) = !((x || y) && u) := by
  cases x <;> cases y <;> cases u <;> rfl

/-- Folding cart-line removals over a list of items deletes exactly the
user's lines whose id occurs among the items, and touches nothing else. -/
theorem remove_fold_spec (uid : Int) :
    ∀ (items : List CartItem) (s : DBState),
      items.foldl (fun st item => remove_from_cart_with_user st item.id uid) s
        = { s with cart_items := s.cart_items.filter (fun ci =>
            !((items.any (fun it => ci.id == it.id)) && ci.user_id == uid)) } := by
  intro items
  induction items with
  | nil =>
    intro s
    simp
  | cons a t ih =>
    intro s
    rw [List.foldl_cons, ih]
    simp only [remove_from_cart_with_user, List.filter_filter]
    congr 1
    apply List.filter_congr
    intro ci _
    simp only [List.any_cons]
    rw [bool_notand_merge]

/-- The shipping order `create_shipping_order` inserts for one cart line,
given the fresh id and the product's price and vendor. -/
def mk_order (nid uid product_id quantity : Int) (price : Rat)
    (vendor_id : Int) : ShippingOrder :=
  { id := nid
    customer_id := uid
    product_id := product_id
    vendor_id := vendor_id
    quantity := quantity
    total_amount := price * (quantity : Rat)
    shipping_status := "pending"
    tracking_number := none
    shipping_address := "Default shipping address - please update in your orders"
    customer_verified := false
    payment_released := false
    verification_requested_at := none }

/-- The id/price/vendor projection of the product table: everything order
creation reads, and everything inventory deduction preserves. -/
def catalog (l : List Product) : List (Int × Rat × Int) :=
  l.map (fun p => (p.id, p.price, p.vendor_id))

/-- The price/vendor data `create_shipping_order` reads for a product id. -/
def price_vendor (l : List Product) (product_id : Int) : Option (Rat × Int) :=
  (l.find? (fun p => p.id == product_id)).map (fun p => (p.price, p.vendor_id))

/-- The orders the creation loop appends: one per cart line whose product
exists, with ids drawn consecutively from the sequence. -/
def expected_orders (uid : Int) (prods : List Product) :
    Int → List CartItem → List ShippingOrder
  | _, [] => []
  | nid, item :: rest =>
    match price_vendor prods item.product_id with
    | none => expected_orders uid prods nid rest
    | some pv =>
      mk_order nid uid item.product_id item.quantity pv.1 pv.2
        :: expected_orders uid prods (nid + 1) rest

theorem catalog_deduct (s : DBState) (product_id qty : Int) :
    catalog (deduct_product_inventory s product_id qty).products
      = catalog s.products := by
  simp only [deduct_product_inventory, catalog, List.map_map]
  apply List.map_congr_left
  intro p _
  by_cases h : p.id = product_id <;> simp [h]

theorem price_vendor_of_catalog_eq :
    ∀ {l1 l2 : List Product}, catalog l1 = catalog l2 →
      ∀ product_id, price_vendor l1 product_id = price_vendor l2 product_id := by
  intro l1
  induction l1 with
  | nil =>
    intro l2 h pid
    cases l2 with
    | nil => rfl
    | cons b t2 => simp [catalog] at h
  | cons a t1 ih =>
    intro l2 h pid
    cases l2 with
    | nil => simp [catalog] at h
    | cons b t2 =>
      simp only [catalog, List.map_cons, List.cons.injEq] at h
      obtain ⟨hhead, htail⟩ := h
      obtain ⟨hid, hpr, hv⟩ : a.id = b.id ∧ a.price = b.price ∧ a.vendor_id = b.vendor_id := by
        have h1 := congrArg Prod.fst hhead
        have h2 := congrArg (fun q => q.2.1) hhead
        have h3 := congrArg (fun q => q.2.2) hhead
        exact ⟨h1, h2, h3⟩
      by_cases hm : (a.id == pid) = true
      · have hm2 : (b.id == pid) = true := by rw [← hid]; exact hm
        simp [price_vendor, List.find?_cons, hm, hm2, hpr, hv]
      · have hm' : (a.id == pid) = false := by simpa using hm
        have hm2 : (b.id == pid) = false := by rw [← hid]; exact hm'
        have := ih htail pid
        simpa [price_vendor, List.find?_cons, hm', hm2] using this

theorem expected_orders_congr (uid : Int) {l1 l2 : List Product}
    (h : catalog l1 = catalog l2) :
    ∀ (nid : Int) (items : List CartItem),
      expected_orders uid l1 nid items = expected_orders uid l2 nid items := by
  intro nid items
  induction items generalizing nid with
  | nil => rfl
  | cons a t ih =>
    simp only [expected_orders, price_vendor_of_catalog_eq h a.product_id]
    cases price_vendor l2 a.product_id with
    | none => exact ih nid
    | some pv => simp [ih (nid + 1)]

/-- Component-wise effect of one `create_shipping_order` call: exactly the
orders for existing products are appended, the id sequence advances with
each insertion, the catalog (ids, prices, vendors) of the product table is
preserved, and no other table changes. -/
theorem create_step (df : Bool) (st : DBState) (uid pid qty : Int) :
    ((create_shipping_order df st uid pid qty
        "Default shipping address - please update in your orders").1.shipping_orders
      = st.shipping_orders ++ ((price_vendor st.products pid).map
          (fun pv => mk_order st.next_order_id uid pid qty pv.1 pv.2)).toList)
    ∧ ((create_shipping_order df st uid pid qty
        "Default shipping address - please update in your orders").1.cart_items
      = st.cart_items)
    ∧ ((create_shipping_order df st uid pid qty
        "Default shipping address - please update in your orders").1.users
      = st.users)
    ∧ ((create_shipping_order df st uid pid qty
        "Default shipping address - please update in your orders").1.transactions
      = st.transactions)
    ∧ (catalog (create_shipping_order df st uid pid qty
        "Default shipping address - please update in your orders").1.products
      = catalog st.products)
    ∧ ((create_shipping_order df st uid pid qty
        "Default shipping address - please update in your orders").1.next_order_id
      = st.next_order_id
          + (if (price_vendor st.products pid).isSome then 1 else 0))
    ∧ ((create_shipping_order df st uid pid qty
        "Default shipping address - please update in your orders").1.now
      = st.now) := by
  unfold create_shipping_order
  cases hfind : st.products.find? (fun p => p.id == pid) with
  | none =>
    simp [price_vendor, hfind]
  | some p =>
    simp only [price_vendor, hfind, Option.map_some, Option.isSome_some,
      Option.toList_some, if_true]
    by_cases hu : (user_exists { st with
        shipping_orders := st.shipping_orders ++ [{
          id := st.next_order_id, customer_id := uid, product_id := pid,
          vendor_id := p.vendor_id, quantity := qty,
          total_amount := p.price * (qty : Rat), shipping_status := "pending",
          tracking_number := none,
          shipping_address := "Default shipping address - please update in your orders",
          customer_verified := false, payment_released := false,
          verification_requested_at := none }],
        next_order_id := st.next_order_id + 1 } uid
      && user_exists { st with
        shipping_orders := st.shipping_orders ++ [{
          id := st.next_order_id, customer_id := uid, product_id := pid,
          vendor_id := p.vendor_id, quantity := qty,
          total_amount := p.price * (qty : Rat), shipping_status := "pending",
          tracking_number := none,
          shipping_address := "Default shipping address - please update in your orders",
          customer_verified := false, payment_released := false,
          verification_requested_at := none }],
        next_order_id := st.next_order_id + 1 } p.vendor_id) = true
    · cases df
      · simp only [hu, if_true, Bool.false_eq_true, if_false]
        refine ⟨?_, ?_, ?_, ?_, ?_, ?_, ?_⟩ <;>
          simp [deduct_product_inventory, mk_order, catalog_deduct, catalog,
            List.map_map]
        · intro q _
          by_cases hq : q.id = pid <;> simp [hq]
      · simp [hu, mk_order]
    · rw [Bool.not_eq_true] at hu
      simp [hu, mk_order]

/-- Component-wise effect of the order-creation loop of `mpesa_callback`
(and of `demo_checkout`): appending exactly one order per cart line whose
product exists, preserving every other table and the product catalog. -/
theorem create_fold_spec (uid : Int) :
    ∀ (items : List CartItem) (st : DBState),
      ((items.foldl (fun st item =>
        (create_shipping_order false st uid item.product_id item.quantity
          "Default shipping address - please update in your orders").1) st).shipping_orders
        = st.shipping_orders ++ expected_orders uid st.products st.next_order_id items)
      ∧ ((items.foldl (fun st item =>
        (create_shipping_order false st uid item.product_id item.quantity
          "Default shipping address - please update in your orders").1) st).cart_items
        = st.cart_items)
      ∧ ((items.foldl (fun st item =>
        (create_shipping_order false st uid item.product_id item.quantity
          "Default shipping address - please update in your orders").1) st).users
        = st.users)
      ∧ ((items.foldl (fun st item =>
        (create_shipping_order false st uid item.product_id item.quantity
          "Default shipping address - please update in your orders").1) st).transactions
        = st.transactions)
      ∧ (catalog (items.foldl (fun st item =>
        (create_shipping_order false st uid item.product_id item.quantity
          "Default shipping address - please update in your orders").1) st).products
        = catalog st.products)
      ∧ ((items.foldl (fun st item =>
        (create_shipping_order false st uid item.product_id item.quantity
          "Default shipping address - please update in your orders").1) st).now
        = st.now) := by
  intro items
  induction items with
  | nil =>
    intro st
    simp [expected_orders]
  | cons a t ih =>
    intro st
    rw [List.foldl_cons]
    obtain ⟨h1, h2, h3, h4, h5, h6, h7⟩ :=
      create_step false st uid a.product_id a.quantity
    obtain ⟨g1, g2, g3, g4, g5, g6⟩ :=
      ih ((create_shipping_order false st uid a.product_id a.quantity
        "Default shipping address - please update in your orders").1)
    refine ⟨?_, ?_, ?_, ?_, ?_, ?_⟩
    · rw [g1, h1, h6]
      rw [expected_orders_congr uid h5 _ t]
      cases hpv : price_vendor st.products a.product_id with
      | none =>
        simp [expected_orders, hpv]
      | some pv =>
        simp [expected_orders, hpv, List.append_assoc]
    · rw [g2, h2]
    · rw [g3, h3]
    · rw [g4, h4]
    · rw [g5, h5]
    · rw [g6, h7]

theorem get_wallet_balance_debit (s : DBState) (uid : Int) (amt : Rat) :
    get_wallet_balance (debit_wallet s uid amt) uid
      = (get_wallet_balance s uid).map (fun b => b - amt) := by
  unfold get_wallet_balance debit_wallet
  rw [show (List.map (fun u =>
      if u.id == uid then { u with wallet_balance := u.wallet_balance - amt }
      else u) s.users) = (List.map (fun u =>
      if (fun v : UserRow => v.id == uid) u then
        (fun v : UserRow => { v with wallet_balance := v.wallet_balance - amt }) u
      else u) s.users) from rfl]
  rw [find?_map_ite (fun v : UserRow => v.id == uid) (fun v : UserRow => v.id == uid)
        (fun v : UserRow => { v with wallet_balance := v.wallet_balance - amt })
        (fun _ => rfl) s.users]
  cases h : s.users.find? (fun v : UserRow => v.id == uid) with
  | none => rfl
  | some u =>
    have hp := List.find?_some h
    rw [beq_iff_eq] at hp
    simp [hp]

theorem get_wallet_balance_credit (s : DBState) (uid : Int) (amt : Rat) :
    get_wallet_balance (credit_wallet s uid amt) uid
      = (get_wallet_balance s uid).map (fun b => b + amt) := by
  unfold get_wallet_balance credit_wallet
  rw [show (List.map (fun u =>
      if u.id == uid then { u with wallet_balance := u.wallet_balance + amt }
      else u) s.users) = (List.map (fun u =>
      if (fun v : UserRow => v.id == uid) u then
        (fun v : UserRow => { v with wallet_balance := v.wallet_balance + amt }) u
      else u) s.users) from rfl]
  rw [find?_map_ite (fun v : UserRow => v.id == uid) (fun v : UserRow => v.id == uid)
        (fun v : UserRow => { v with wallet_balance := v.wallet_balance + amt })
        (fun _ => rfl) s.users]
  cases h : s.users.find? (fun v : UserRow => v.id == uid) with
  | none => rfl
  | some u =>
    have hp := List.find?_some h
    rw [beq_iff_eq] at hp
    simp [hp]

/-- The single fold of `extract_callback_data` computes, independently for
each of the three names, the last correctly-typed value. -/
theorem extract_fold_decomp :
    ∀ (items : List MetadataItem)
      (acc : Option String × Option String × Option Rat),
      items.foldl
        (fun (acc : Option String × Option String × Option Rat) it =>
          if it.name == "MpesaReceiptNumber" then
            (it.value.bind MetaValue.as_str, acc.2.1, acc.2.2)
          else if it.name == "TransactionDate" then
            (acc.1, it.value.bind MetaValue.as_str, acc.2.2)
          else if it.name == "Amount" then
            (acc.1, acc.2.1, it.value.bind MetaValue.as_f64)
          else acc) acc
      = (items.foldl (fun a it =>
            if it.name == "MpesaReceiptNumber" then it.value.bind MetaValue.as_str
            else a) acc.1,
         items.foldl (fun a it =>
            if it.name == "TransactionDate" then it.value.bind MetaValue.as_str
            else a) acc.2.1,
         items.foldl (fun a it =>
            if it.name == "Amount" then it.value.bind MetaValue.as_f64
            else a) acc.2.2) := by
  intro items
  induction items with
  | nil => intro acc; rfl
  | cons it rest ih =>
    intro acc
    simp only [List.foldl_cons]
    cases h1 : (it.name == "MpesaReceiptNumber") with
    | true =>
      have e1 : it.name = "MpesaReceiptNumber" := by simpa using h1
      have h2 : (it.name == "TransactionDate") = false := by simp [e1]
      have h3 : (it.name == "Amount") = false := by simp [e1]
      simp only [h1, h2, h3, eq_self_iff_true, if_true, Bool.false_eq_true,
        if_false]
      rw [ih]
    | false =>
      cases h2 : (it.name == "TransactionDate") with
      | true =>
        have e2 : it.name = "TransactionDate" := by simpa using h2
        have h3 : (it.name == "Amount") = false := by simp [e2]
        simp only [h1, h2, h3, eq_self_iff_true, if_true, Bool.false_eq_true,
          if_false]
        rw [ih]
      | false =>
        cases h3 : (it.name == "Amount") with
        | true =>
          simp only [h1, h2, h3, eq_self_iff_true, if_true,
            Bool.false_eq_true, if_false]
          rw [ih]
        | false =>
          simp only [h1, h2, h3, Bool.false_eq_true, if_false]
          rw [ih]

/-- `extract_callback_data`, restated per field. -/
theorem extract_callback_data_eq (callback : StkCallback) (m : CallbackMetadata)
    (hm : callback.callback_metadata = some m) :
    extract_callback_data callback
      = (match last_named_str m.item "MpesaReceiptNumber",
            last_named_str m.item "TransactionDate",
            last_named_num m.item "Amount" with
        | some receipt, some date, some amt => some (receipt, date, amt)
        | _, _, _ => none) := by
  unfold extract_callback_data
  rw [hm]
  simp only [extract_fold_decomp m.item (none, none, none)]
  unfold last_named_str last_named_num
  cases h1 : m.item.foldl (fun a it =>
      if it.name == "MpesaReceiptNumber" then it.value.bind MetaValue.as_str
      else a) none with
  | none =>
    cases h2 : m.item.foldl (fun a it =>
        if it.name == "TransactionDate" then it.value.bind MetaValue.as_str
        else a) none <;>
      cases h3 : m.item.foldl (fun a it =>
          if it.name == "Amount" then it.value.bind MetaValue.as_f64
          else a) none <;> rfl
  | some receipt =>
    cases h2 : m.item.foldl (fun a it =>
        if it.name == "TransactionDate" then it.value.bind MetaValue.as_str
        else a) none <;>
      cases h3 : m.item.foldl (fun a it =>
          if it.name == "Amount" then it.value.bind MetaValue.as_f64
          else a) none <;> rfl

theorem get_cart_items_update_tx (s : DBState) (crid status : String)
    (receipt date : Option String) (uid : Int) :
    get_cart_items (update_payment_transaction s crid status receipt date) uid
      = get_cart_items s uid := rfl

/-- Normal form of the success path of `mpesa_callback` under `noFail`:
transaction update, then one order per selected line, then removal of
exactly those lines. -/
theorem mpesa_callback_success_normal_form (s : DBState) (cb : StkCallback)
    (tx : PaymentTransaction)
    (htx : get_payment_transaction_by_checkout_request_id s
      cb.checkout_request_i_d = some tx)
    (hcode : cb.result_code = 0) :
    (mpesa_callback noFail s cb).1
      = (select_items tx (get_cart_items s tx.user_id)).foldl
          (fun st item => remove_from_cart_with_user st item.id tx.user_id)
          ((select_items tx (get_cart_items s tx.user_id)).foldl
            (fun st item =>
              (create_shipping_order false st tx.user_id item.product_id
                item.quantity
                "Default shipping address - please update in your orders").1)
            (update_payment_transaction s cb.checkout_request_i_d "completed"
              ((extract_callback_data cb).map (fun d => d.1))
              ((extract_callback_data cb).map (fun d => d.2.1)))) := by
  simp only [mpesa_callback, htx, hcode, noFail, get_cart_items_update_tx]
  rfl

/-! ## Claim theorems -/

/-- C6: the payment callback endpoint always responds HTTP 200 with the
fixed acknowledgement body `{ResultCode: 0, ResultDesc: "Accepted"}` for
every input and every pattern of internal database failures; when no
`PaymentTransaction` matches the checkout-request id it performs no state
change and stops. -/
theorem mpesa_callback_always_acks (o : FailOracle) (s : DBState)
    (cb : StkCallback) :
    (mpesa_callback o s cb).2 = mpesa_ack
      ∧ (get_payment_transaction_by_checkout_request_id s
          cb.checkout_request_i_d = none → (mpesa_callback o s cb).1 = s) := by
  constructor
  · simp only [mpesa_callback]
    cases h : get_payment_transaction_by_checkout_request_id s
        cb.checkout_request_i_d with
    | none => rfl
    | some tx =>
      cases hc : (cb.result_code == 0) with
      | true => cases hg : o.get_cart_fails <;> simp [hc, hg]
      | false => simp [hc]
  · intro hnone
    simp [mpesa_callback, hnone]

/-- C6 witness: a concrete callback whose checkout-request id matches no
stored transaction is acknowledged with the fixed body and changes
nothing. -/
theorem mpesa_callback_always_acks_witness :
    (mpesa_callback noFail exState exCbUnknown).2 = mpesa_ack
      ∧ (mpesa_callback noFail exState exCbUnknown).1 = exState := by
  have h := mpesa_callback_always_acks noFail exState exCbUnknown
  exact ⟨h.1, h.2 rfl⟩

/-- C5: a callback with a non-zero result code on a known transaction sets
the status to `"cancelled"` for code 1032 and `"failed"` otherwise,
creates no shipping order and leaves the cart unchanged. -/
theorem mpesa_callback_failure_path (s : DBState) (cb : StkCallback)
    (tx : PaymentTransaction)
    (htx : get_payment_transaction_by_checkout_request_id s
      cb.checkout_request_i_d = some tx)
    (hcode : cb.result_code ≠ 0) :
    (mpesa_callback noFail s cb).1
        = update_payment_transaction s cb.checkout_request_i_d
            (if cb.result_code = 1032 then "cancelled" else "failed") none none
      ∧ (mpesa_callback noFail s cb).1.shipping_orders = s.shipping_orders
      ∧ (mpesa_callback noFail s cb).1.cart_items = s.cart_items
      ∧ ∀ t ∈ (mpesa_callback noFail s cb).1.transactions,
          t.checkout_request_id = cb.checkout_request_i_d →
            t.status = (if cb.result_code = 1032 then "cancelled" else "failed") := by
  have hc : (cb.result_code == 0) = false := by simpa using hcode
  have hmain : (mpesa_callback noFail s cb).1
      = update_payment_transaction s cb.checkout_request_i_d
          (if cb.result_code = 1032 then "cancelled" else "failed") none none := by
    simp only [mpesa_callback, htx, hc, noFail]
    by_cases h32 : cb.result_code = 1032
    · simp [h32]
    · simp [h32]
  refine ⟨hmain, ?_, ?_, ?_⟩
  · rw [hmain]; rfl
  · rw [hmain]; rfl
  · rw [hmain]
    intro t ht hcrid
    simp only [update_payment_transaction, List.mem_map] at ht
    obtain ⟨t0, ht0, rfl⟩ := ht
    by_cases hm : (t0.checkout_request_id == cb.checkout_request_i_d) = true
    · simp [hm]
    · rw [Bool.not_eq_true] at hm
      simp only [hm, Bool.false_eq_true, if_false] at hcrid
      exact absurd hcrid (by simpa using hm)

/-- C5 witness: the concrete failure callback (result code 1) on the known
transaction leaves the cart unchanged. -/
theorem mpesa_callback_failure_path_witness :
    (mpesa_callback noFail exState exCbFailed).1.cart_items
      = exState.cart_items :=
  (mpesa_callback_failure_path exState exCbFailed exTxCancelled rfl
    (by decide)).2.2.1

/-- C4: a withdrawal of more than the balance is rejected with the balance
unchanged; a withdrawal of at least the KSh 10 minimum and at most the
balance (with a valid phone) succeeds, the returned and stored new balance
is the old balance minus the amount, and that balance is non-negative. -/
theorem wallet_withdrawal_correct (s : DBState) (user_id : Int)
    (amount bal : Rat) (phone : String)
    (hbal : get_wallet_balance s user_id = some bal) :
    (bal < amount →
      ((withdraw_wallet_route s user_id amount phone).1 = s
        ∧ ∀ nb, (withdraw_wallet_route s user_id amount phone).2
            ≠ WithdrawOutcome.success nb))
    ∧ (10 ≤ amount → amount ≤ bal → is_valid_kenyan_phone phone = true →
      ((withdraw_wallet_route s user_id amount phone).2
          = WithdrawOutcome.success (bal - amount)
        ∧ get_wallet_balance (withdraw_wallet_route s user_id amount phone).1
            user_id = some (bal - amount)
        ∧ 0 ≤ bal - amount)) := by
  constructor
  · intro hlt
    by_cases hmin : amount < 10
    · simp [withdraw_wallet_route, hmin]
    · by_cases hph : is_valid_kenyan_phone phone = true
      · have : ¬(bal < amount) ∨ True := Or.inr trivial
        simp only [withdraw_wallet_route, hmin, if_false, hph,
          Bool.not_true, Bool.false_eq_true, process_wallet_withdrawal, hbal]
        simp [hlt]
      · rw [Bool.not_eq_true] at hph
        simp [withdraw_wallet_route, hmin, hph]
  · intro h10 hle hph
    have hmin : ¬(amount < 10) := not_lt.mpr h10
    have hlt : ¬(bal < amount) := not_lt.mpr hle
    have hstate : withdraw_wallet_route s user_id amount phone
        = (debit_wallet s user_id amount,
           WithdrawOutcome.success (bal - amount)) := by
      simp [withdraw_wallet_route, hmin, hph, process_wallet_withdrawal,
        hbal, hlt]
    refine ⟨by rw [hstate], ?_, by linarith⟩
    rw [hstate]
    rw [show (debit_wallet s user_id amount, WithdrawOutcome.success (bal - amount)).1
        = debit_wallet s user_id amount from rfl]
    rw [get_wallet_balance_debit, hbal]
    rfl

/-- C4 witness: vendor 2 (balance 50) withdraws KSh 10 to a valid phone;
the call succeeds and the stored balance becomes 40. -/
theorem wallet_withdrawal_correct_witness :
    ((withdraw_wallet_route exState 2 10 "0712345678").2
        = WithdrawOutcome.success (50 - 10))
      ∧ get_wallet_balance (withdraw_wallet_route exState 2 10 "0712345678").1 2
          = some (50 - 10) := by
  have h := (wallet_withdrawal_correct exState 2 10 50 "0712345678" rfl).2
      (by norm_num) (by norm_num) (by decide)
  exact ⟨h.1, h.2.1⟩

/-- C2: for an order owned by the calling customer with `payment_released`
still false, `verify(verified=true)` succeeds, sets `customer_verified`
and `payment_released` in the same step in which it credits the order's
`total_amount` to the vendor's wallet, and a second identical call
returns success while changing nothing. -/
theorem escrow_settlement_idempotent (s : DBState) (order_id customer_id : Int)
    (order : ShippingOrder) (vbal : Rat)
    (hfind : s.shipping_orders.find? (fun o => o.id == order_id) = some order)
    (hown : order.customer_id = customer_id)
    (hrel : order.payment_released = false)
    (hvb : get_wallet_balance s order.vendor_id = some vbal) :
    ((verify_delivery_route s customer_id order_id true).2
        = VerifyOutcome.verifiedOk)
      ∧ (∀ o ∈ (verify_delivery_route s customer_id order_id true).1.shipping_orders,
          o.id = order_id →
            o.customer_verified = true ∧ o.payment_released = true)
      ∧ (get_wallet_balance (verify_delivery_route s customer_id order_id true).1
          order.vendor_id = some (vbal + order.total_amount))
      ∧ (verify_delivery_route (verify_delivery_route s customer_id order_id true).1
            customer_id order_id true
          = ((verify_delivery_route s customer_id order_id true).1,
             VerifyOutcome.verifiedOk)) := by
  have hne : ¬(order.customer_id ≠ customer_id) := by simp [hown]
  have hstate : verify_delivery_route s customer_id order_id true
      = (credit_wallet
          { s with shipping_orders := s.shipping_orders.map (fun o =>
              if o.id == order_id then
                { o with customer_verified := true, payment_released := true }
              else o) }
          order.vendor_id order.total_amount,
         VerifyOutcome.verifiedOk) := by
    simp only [verify_delivery_route, verify_delivery_and_release_payment,
      hfind, hne, hrel, if_true, if_false, Bool.false_eq_true]
  have hmem :
      ∀ o ∈ (verify_delivery_route s customer_id order_id true).1.shipping_orders,
        o.id = order_id →
          o.customer_verified = true ∧ o.payment_released = true := by
    rw [hstate]
    intro o ho hid
    simp only [credit_wallet, List.mem_map] at ho
    obtain ⟨o0, ho0, rfl⟩ := ho
    by_cases hm : (o0.id == order_id) = true
    · simp [hm]
    · rw [Bool.not_eq_true] at hm
      simp only [hm, Bool.false_eq_true, if_false] at hid
      exact absurd hid (by simpa using hm)
  refine ⟨by rw [hstate], hmem, ?_, ?_⟩
  · rw [hstate]
    rw [show (credit_wallet
        { s with shipping_orders := s.shipping_orders.map (fun o =>
            if o.id == order_id then
              { o with customer_verified := true, payment_released := true }
            else o) }
        order.vendor_id order.total_amount,
        VerifyOutcome.verifiedOk).1
      = credit_wallet
        { s with shipping_orders := s.shipping_orders.map (fun o =>
            if o.id == order_id then
              { o with customer_verified := true, payment_released := true }
            else o) }
        order.vendor_id order.total_amount from rfl]
    rw [get_wallet_balance_credit]
    rw [show get_wallet_balance
        { s with shipping_orders := s.shipping_orders.map (fun o =>
            if o.id == order_id then
              { o with customer_verified := true, payment_released := true }
            else o) } order.vendor_id
      = get_wallet_balance s order.vendor_id from rfl]
    rw [hvb]
    rfl
  · have hfind2 : (verify_delivery_route s customer_id order_id
        true).1.shipping_orders.find? (fun o => o.id == order_id)
        = some { order with customer_verified := true,
                            payment_released := true } := by
      rw [hstate]
      rw [show (credit_wallet
          { s with shipping_orders := s.shipping_orders.map (fun o =>
              if o.id == order_id then
                { o with customer_verified := true, payment_released := true }
              else o) }
          order.vendor_id order.total_amount,
          VerifyOutcome.verifiedOk).1.shipping_orders
        = s.shipping_orders.map (fun o =>
            if (fun x : ShippingOrder => x.id == order_id) o then
              (fun x : ShippingOrder =>
                { x with customer_verified := true,
                         payment_released := true }) o
            else o) from rfl]
      rw [find?_map_ite (fun x : ShippingOrder => x.id == order_id)
            (fun x : ShippingOrder => x.id == order_id)
            (fun x : ShippingOrder =>
              { x with customer_verified := true, payment_released := true })
            (fun _ => rfl) s.shipping_orders]
      rw [hfind]
      have e : order.id = order_id := by simpa using List.find?_some hfind
      simp [e]
    rw [show verify_delivery_route (verify_delivery_route s customer_id
          order_id true).1 customer_id order_id true
        = (match verify_delivery_and_release_payment
            (verify_delivery_route s customer_id order_id true).1 order_id
            customer_id with
          | (s1, .ok _) => (s1, VerifyOutcome.verifiedOk)
          | (s1, .error _) => (s1, VerifyOutcome.serverError)) from rfl]
    rw [show verify_delivery_and_release_payment
          (verify_delivery_route s customer_id order_id true).1 order_id
          customer_id
        = ((verify_delivery_route s customer_id order_id true).1,
           Except.ok ()) from by
      unfold verify_delivery_and_release_payment
      rw [hfind2]
      simp [hne]]

/-- C2 witness: verifying the concrete delivered order once credits vendor
2's wallet with 10 (50 → 60) and flips both flags; a second call is a
no-op returning success. -/
theorem escrow_settlement_idempotent_witness :
    ((verify_delivery_route exStateOrder 1 50 true).2
        = VerifyOutcome.verifiedOk)
      ∧ (get_wallet_balance (verify_delivery_route exStateOrder 1 50 true).1 2
          = some (50 + 10))
      ∧ (verify_delivery_route (verify_delivery_route exStateOrder 1 50 true).1
            1 50 true
          = ((verify_delivery_route exStateOrder 1 50 true).1,
             VerifyOutcome.verifiedOk)) := by
  have h := escrow_settlement_idempotent exStateOrder 50 1 exOrderPending 50
    rfl rfl rfl rfl
  exact ⟨h.1, h.2.2.1, h.2.2.2⟩

/-- C7 counterexample: the vendor updates their order's status to
`"Delivered"` (capital D).  The route accepts it and triggers the
verification-request update, but that update's SQL matches only rows whose
stored status is exactly `"delivered"`, so `verification_requested_at`
stays null — the claim's "in any letter case" fails. -/
theorem delivered_casing_counterexample :
    ((update_shipping_status_route exStateOrder 2 50 "Delivered" none).2
        = RouteStatus.ok)
      ∧ ((update_shipping_status_route exStateOrder 2 50 "Delivered"
            none).1.shipping_orders.map
          (fun o => (o.shipping_status, o.verification_requested_at))
        = [("Delivered", none)]) := by
  exact ⟨by decide, by decide⟩

/-- C7 amended: only a status update whose new status is exactly the
lowercase string `"delivered"` stamps `verification_requested_at` with a
non-null timestamp (other casings store the status verbatim and leave the
stamp unchanged); the stamp accompanies the requested status update, and
repeating the `"delivered"` transition re-stamps without error. -/
theorem delivered_exact_stamps (s : DBState) (vendor_id order_id : Int)
    (order : ShippingOrder) (tracking : Option String)
    (hfind : s.shipping_orders.find? (fun o => o.id == order_id) = some order)
    (hown : order.vendor_id = vendor_id) :
    ((update_shipping_status_route s vendor_id order_id "delivered" tracking).2
        = RouteStatus.ok)
      ∧ (∀ o ∈ (update_shipping_status_route s vendor_id order_id "delivered"
            tracking).1.shipping_orders,
          o.id = order_id →
            o.shipping_status = "delivered"
              ∧ o.verification_requested_at = some s.now)
      ∧ ((update_shipping_status_route
            (update_shipping_status_route s vendor_id order_id "delivered"
              tracking).1 vendor_id order_id "delivered" tracking).2
          = RouteStatus.ok) := by
  have hne : ¬(order.vendor_id ≠ vendor_id) := by simp [hown]
  have hlow : ("delivered".toList.map Char.toLower
      == "delivered".toList) = true := by decide
  have hstate : update_shipping_status_route s vendor_id order_id "delivered"
        tracking
      = (request_delivery_verification
          (update_shipping_status s order_id "delivered" tracking) order_id,
         RouteStatus.ok) := by
    simp only [update_shipping_status_route, hfind, hne, hlow, if_true,
      if_false]
  have hnow : (update_shipping_status s order_id "delivered" tracking).now
      = s.now := rfl
  have hmem : ∀ o ∈ (update_shipping_status_route s vendor_id order_id
        "delivered" tracking).1.shipping_orders,
      o.id = order_id →
        o.shipping_status = "delivered"
          ∧ o.verification_requested_at = some s.now := by
    rw [hstate]
    intro o ho hid
    simp only [request_delivery_verification, update_shipping_status,
      List.mem_map] at ho
    obtain ⟨o1, ho1, rfl⟩ := ho
    obtain ⟨o0, ho0, rfl⟩ := ho1
    by_cases hm : (o0.id == order_id) = true
    · cases tracking with
      | none =>
        simp only [hm, if_true] at hid ⊢
        simp
      | some tr =>
        simp only [hm, if_true] at hid ⊢
        simp
    · rw [Bool.not_eq_true] at hm
      simp only [hm, Bool.false_eq_true, if_false] at hid ⊢
      rw [if_neg (by simp [hm])] at hid ⊢
      exact absurd hid (by simpa using hm)
  refine ⟨by rw [hstate], hmem, ?_⟩
  have hbeq : order.id = order_id := by
    simpa using List.find?_some hfind
  have hfind2 : ∃ o2, (update_shipping_status_route s vendor_id order_id
        "delivered" tracking).1.shipping_orders.find?
        (fun o => o.id == order_id) = some o2 ∧ o2.vendor_id = vendor_id := by
    rw [hstate]
    rw [show (request_delivery_verification
          (update_shipping_status s order_id "delivered" tracking) order_id,
          RouteStatus.ok).1.shipping_orders
        = ((s.shipping_orders.map (fun o =>
            if (fun x : ShippingOrder => x.id == order_id) o then
              set_status_tracking "delivered" tracking o
            else o)).map (fun o =>
            if (fun x : ShippingOrder =>
                x.id == order_id && x.shipping_status == "delivered") o then
              stamp_verification (update_shipping_status s order_id
                "delivered" tracking).now o
            else o)) from by
      cases tracking <;> rfl]
    rw [find?_map_ite (fun x : ShippingOrder => x.id == order_id)
          (fun x : ShippingOrder =>
            x.id == order_id && x.shipping_status == "delivered")
          (stamp_verification (update_shipping_status s order_id "delivered"
            tracking).now)
          (fun _ => rfl)]
    rw [find?_map_ite (fun x : ShippingOrder => x.id == order_id)
          (fun x : ShippingOrder => x.id == order_id)
          (set_status_tracking "delivered" tracking)
          (fun x => by cases tracking <;> rfl)]
    rw [hfind]
    refine ⟨_, rfl, ?_⟩
    cases tracking <;>
      simp [hbeq, hown, set_status_tracking, stamp_verification]
  obtain ⟨o2, hf2, hv2⟩ := hfind2
  have hne2 : ¬(o2.vendor_id ≠ vendor_id) := by simp [hv2]
  set S := (update_shipping_status_route s vendor_id order_id "delivered"
    tracking).1 with hS
  simp only [update_shipping_status_route, hf2, hne2, hlow, if_true, if_false]

/-- C7 witness: the exact-lowercase transition on the concrete order
succeeds, stores `"delivered"`, stamps the timestamp, and can be repeated
without error. -/
theorem delivered_exact_stamps_witness :
    ((update_shipping_status_route exStateOrder 2 50 "delivered" none).2
        = RouteStatus.ok)
      ∧ (∀ o ∈ (update_shipping_status_route exStateOrder 2 50 "delivered"
            none).1.shipping_orders,
          o.id = 50 →
            o.shipping_status = "delivered"
              ∧ o.verification_requested_at = some exStateOrder.now)
      ∧ ((update_shipping_status_route
            (update_shipping_status_route exStateOrder 2 50 "delivered"
              none).1 2 50 "delivered" none).2
          = RouteStatus.ok) :=
  delivered_exact_stamps exStateOrder 2 50 exOrderPending none rfl rfl

/-- C9: when the product and both user rows exist, `create_shipping_order`
always returns a created order — even when the inventory deduction fails —
and on a successful deduction every row of the ordered product has its
stock replaced by `GREATEST(0, quantity - ordered)`, so the stored
quantity never becomes negative even when the ordered quantity exceeds the
remaining stock; a failed deduction leaves the stock untouched. -/
theorem create_order_deducts_clamped (df : Bool) (s : DBState)
    (customer_id pid qty : Int) (addr : String) (p : Product)
    (hfind : s.products.find? (fun q => q.id == pid) = some p)
    (hcust : user_exists s customer_id = true)
    (hvend : user_exists s p.vendor_id = true) :
    ((create_shipping_order df s customer_id pid qty addr).2).isSome = true
      ∧ (df = false →
          (create_shipping_order df s customer_id pid qty addr).1.products
            = s.products.map (fun q =>
                if q.id == pid then
                  { q with quantity := max 0 (q.quantity - qty) }
                else q))
      ∧ (df = false →
          ∀ q ∈ (create_shipping_order df s customer_id pid qty
              addr).1.products,
            q.id = pid → 0 ≤ q.quantity)
      ∧ (df = true →
          (create_shipping_order df s customer_id pid qty addr).1.products
            = s.products) := by
  have hprod : (create_shipping_order df s customer_id pid qty addr).2.isSome
        = true
      ∧ (create_shipping_order df s customer_id pid qty addr).1.products
        = (if df then s.products
           else s.products.map (fun q =>
              if q.id == pid then
                { q with quantity := max 0 (q.quantity - qty) }
              else q)) := by
    unfold create_shipping_order
    rw [hfind]
    have hcond : (user_exists { s with
        shipping_orders := s.shipping_orders ++ [{
          id := s.next_order_id, customer_id := customer_id,
          product_id := pid, vendor_id := p.vendor_id, quantity := qty,
          total_amount := p.price * (qty : Rat),
          shipping_status := "pending", tracking_number := none,
          shipping_address := addr, customer_verified := false,
          payment_released := false, verification_requested_at := none }],
        next_order_id := s.next_order_id + 1 } customer_id
        && user_exists { s with
        shipping_orders := s.shipping_orders ++ [{
          id := s.next_order_id, customer_id := customer_id,
          product_id := pid, vendor_id := p.vendor_id, quantity := qty,
          total_amount := p.price * (qty : Rat),
          shipping_status := "pending", tracking_number := none,
          shipping_address := addr, customer_verified := false,
          payment_released := false, verification_requested_at := none }],
        next_order_id := s.next_order_id + 1 } p.vendor_id) = true := by
      rw [show user_exists { s with
          shipping_orders := s.shipping_orders ++ [{
            id := s.next_order_id, customer_id := customer_id,
            product_id := pid, vendor_id := p.vendor_id, quantity := qty,
            total_amount := p.price * (qty : Rat),
            shipping_status := "pending", tracking_number := none,
            shipping_address := addr, customer_verified := false,
            payment_released := false, verification_requested_at := none }],
          next_order_id := s.next_order_id + 1 } customer_id
        = user_exists s customer_id from rfl]
      rw [show user_exists { s with
          shipping_orders := s.shipping_orders ++ [{
            id := s.next_order_id, customer_id := customer_id,
            product_id := pid, vendor_id := p.vendor_id, quantity := qty,
            total_amount := p.price * (qty : Rat),
            shipping_status := "pending", tracking_number := none,
            shipping_address := addr, customer_verified := false,
            payment_released := false, verification_requested_at := none }],
          next_order_id := s.next_order_id + 1 } p.vendor_id
        = user_exists s p.vendor_id from rfl]
      rw [hcust, hvend]
      rfl
    cases df with
    | false =>
      simp only [hcond, if_true, Bool.false_eq_true, if_false]
      exact ⟨by simp, by simp [deduct_product_inventory]⟩
    | true =>
      simp only [hcond, if_true]
      exact ⟨by simp, by simp⟩
  refine ⟨hprod.1, ?_, ?_, ?_⟩
  · intro hdf
    rw [hprod.2, hdf]
    rfl
  · intro hdf q hq hid
    rw [hprod.2, hdf] at hq
    simp only [Bool.false_eq_true, if_false, List.mem_map] at hq
    obtain ⟨q0, hq0, rfl⟩ := hq
    by_cases hm : (q0.id == pid) = true
    · simp only [hm, if_true]
      exact le_max_left 0 _
    · rw [Bool.not_eq_true] at hm
      simp only [hm, Bool.false_eq_true, if_false] at hid ⊢
      exact absurd hid (by simpa using hm)
  · intro hdf
    rw [hprod.2, hdf]
    rfl

/-- C9 witness: ordering 5 units of the concrete product with stock 3
still creates the order and clamps the stored stock at 0. -/
theorem create_order_deducts_clamped_witness :
    ((create_shipping_order false exState 1 10 5 "addr").2).isSome = true
      ∧ ∀ q ∈ (create_shipping_order false exState 1 10 5 "addr").1.products,
          q.id = 10 → 0 ≤ q.quantity := by
  have h := create_order_deducts_clamped false exState 1 10 5 "addr"
    exProduct rfl rfl rfl
  exact ⟨h.1, h.2.2.1 rfl⟩

theorem remove_fold_cart (uid : Int) (items : List CartItem) (st : DBState) :
    (items.foldl (fun st item =>
      remove_from_cart_with_user st item.id uid) st).cart_items
      = st.cart_items.filter (fun ci =>
          !((items.any (fun it => ci.id == it.id)) && ci.user_id == uid)) := by
  rw [remove_fold_spec]

theorem remove_fold_orders (uid : Int) (items : List CartItem) (st : DBState) :
    (items.foldl (fun st item =>
      remove_from_cart_with_user st item.id uid) st).shipping_orders
      = st.shipping_orders := by
  rw [remove_fold_spec]

theorem remove_fold_transactions (uid : Int) (items : List CartItem)
    (st : DBState) :
    (items.foldl (fun st item =>
      remove_from_cart_with_user st item.id uid) st).transactions
      = st.transactions := by
  rw [remove_fold_spec]

/-- C10: callback metadata extraction is all-or-nothing — the triple is
returned exactly when, for each of the three names, the last item so named
carries a correctly-typed value; whenever any of them is missing or
mistyped the handler records receipt and date as null and the transaction
is still marked completed. -/
theorem extract_all_or_nothing (s : DBState) (cb : StkCallback)
    (tx : PaymentTransaction)
    (htx : get_payment_transaction_by_checkout_request_id s
      cb.checkout_request_i_d = some tx)
    (hcode : cb.result_code = 0) :
    (∀ m, cb.callback_metadata = some m →
      extract_callback_data cb
        = (match last_named_str m.item "MpesaReceiptNumber",
              last_named_str m.item "TransactionDate",
              last_named_num m.item "Amount" with
          | some receipt, some date, some amt => some (receipt, date, amt)
          | _, _, _ => none))
      ∧ (∀ t ∈ (mpesa_callback noFail s cb).1.transactions,
          t.checkout_request_id = cb.checkout_request_i_d →
            t.status = "completed"
              ∧ ((∃ r d a, extract_callback_data cb = some (r, d, a)
                    ∧ t.mpesa_receipt_number = some r
                    ∧ t.transaction_date = some d)
                 ∨ (extract_callback_data cb = none
                    ∧ t.mpesa_receipt_number = none
                    ∧ t.transaction_date = none))) := by
  constructor
  · intro m hm
    exact extract_callback_data_eq cb m hm
  · have htrans : (mpesa_callback noFail s cb).1.transactions
        = (update_payment_transaction s cb.checkout_request_i_d "completed"
            ((extract_callback_data cb).map (fun d => d.1))
            ((extract_callback_data cb).map (fun d => d.2.1))).transactions := by
      rw [mpesa_callback_success_normal_form s cb tx htx hcode,
        remove_fold_transactions]
      exact (create_fold_spec tx.user_id
        (select_items tx (get_cart_items s tx.user_id))
        (update_payment_transaction s cb.checkout_request_i_d "completed"
          ((extract_callback_data cb).map (fun d => d.1))
          ((extract_callback_data cb).map (fun d => d.2.1)))).2.2.2.1
    intro t ht hcrid
    rw [htrans] at ht
    simp only [update_payment_transaction, List.mem_map] at ht
    obtain ⟨t0, ht0, rfl⟩ := ht
    by_cases hm : (t0.checkout_request_id == cb.checkout_request_i_d) = true
    · simp only [hm, if_true]
      refine ⟨by trivial, ?_⟩
      cases hex : extract_callback_data cb with
      | none => exact Or.inr ⟨rfl, rfl, rfl⟩
      | some d => exact Or.inl ⟨d.1, d.2.1, d.2.2, rfl, rfl, rfl⟩
    · rw [Bool.not_eq_true] at hm
      simp only [hm, Bool.false_eq_true, if_false] at hcrid
      exact absurd hcrid (by simpa using hm)

/-- C10 witness: for the concrete callback whose `TransactionDate` is a
number, extraction yields nothing, yet the transaction is completed with
null receipt and date. -/
theorem extract_all_or_nothing_witness :
    extract_callback_data exCbMistyped = none
      ∧ ({ exTxCancelled with status := "completed", mpesa_receipt_number := none, transaction_date := none } : PaymentTransaction).status = "completed" := by
  have h := extract_all_or_nothing exState exCbMistyped exTxCancelled rfl rfl
  have h2 := h.2 ({ exTxCancelled with status := "completed", mpesa_receipt_number := none, transaction_date := none } : PaymentTransaction)
    (by decide) (by decide)
  refine ⟨?_, h2.1⟩
  rcases h2.2 with ⟨r, d, a, hx, hr, hd⟩ | ⟨hx, h1, h2⟩
  · exact absurd hr (by simp)
  · exact hx

/-- C3: a successful callback on a known transaction creates exactly one
shipping order per cart line in the intersection of the user's current
cart with the snapshotted ids (vendor and price taken from the product,
total = current price × quantity, consecutive fresh ids) — falling back to
all current lines when no snapshot is stored — deletes exactly those lines
from the cart, and leaves every other cart line (in particular every line
outside the snapshot) unchanged. -/
theorem callback_success_processes_exact_lines (s : DBState)
    (cb : StkCallback) (tx : PaymentTransaction)
    (htx : get_payment_transaction_by_checkout_request_id s
      cb.checkout_request_i_d = some tx)
    (hcode : cb.result_code = 0) :
    ((mpesa_callback noFail s cb).1.shipping_orders
        = s.shipping_orders
            ++ expected_orders tx.user_id s.products s.next_order_id
                (select_items tx (get_cart_items s tx.user_id)))
      ∧ ((mpesa_callback noFail s cb).1.cart_items
          = s.cart_items.filter (fun ci =>
              !(((select_items tx (get_cart_items s tx.user_id)).any
                  (fun it => ci.id == it.id)) && ci.user_id == tx.user_id)))
      ∧ (∀ ci ∈ s.cart_items,
          ((select_items tx (get_cart_items s tx.user_id)).all
            (fun it => !(ci.id == it.id))) = true →
            ci ∈ (mpesa_callback noFail s cb).1.cart_items) := by
  have hnf := mpesa_callback_success_normal_form s cb tx htx hcode
  have hcf := create_fold_spec tx.user_id
    (select_items tx (get_cart_items s tx.user_id))
    (update_payment_transaction s cb.checkout_request_i_d "completed"
      ((extract_callback_data cb).map (fun d => d.1))
      ((extract_callback_data cb).map (fun d => d.2.1)))
  have horders : (mpesa_callback noFail s cb).1.shipping_orders
      = s.shipping_orders
          ++ expected_orders tx.user_id s.products s.next_order_id
              (select_items tx (get_cart_items s tx.user_id)) := by
    rw [hnf, remove_fold_orders]
    exact hcf.1
  have hcart : (mpesa_callback noFail s cb).1.cart_items
      = s.cart_items.filter (fun ci =>
          !(((select_items tx (get_cart_items s tx.user_id)).any
              (fun it => ci.id == it.id)) && ci.user_id == tx.user_id)) := by
    rw [hnf, remove_fold_cart]
    rw [hcf.2.1]
    rfl
  refine ⟨horders, hcart, ?_⟩
  intro ci hci hall
  rw [hcart, List.mem_filter]
  refine ⟨hci, ?_⟩
  have hany : ((select_items tx (get_cart_items s tx.user_id)).any
      (fun it => ci.id == it.id)) = false := by
    rw [List.any_eq_false]
    intro it hit
    have h1 := List.all_eq_true.mp hall it hit
    simp only [Bool.not_eq_true'] at h1
    simp [h1]
  rw [hany]
  rfl

/-- C3 witness: with two cart lines and a snapshot covering only line 100,
the success callback produces exactly the expected single order and leaves
only line 101 in the cart. -/
theorem callback_success_processes_exact_lines_witness :
    ((mpesa_callback noFail exStateTwo exCbSuccess2).1.shipping_orders
        = exStateTwo.shipping_orders
            ++ expected_orders exTxInitiated.user_id exStateTwo.products
                exStateTwo.next_order_id
                (select_items exTxInitiated
                  (get_cart_items exStateTwo exTxInitiated.user_id)))
      ∧ ((mpesa_callback noFail exStateTwo exCbSuccess2).1.cart_items
          = [exCartItem2]) := by
  have h := callback_success_processes_exact_lines exStateTwo exCbSuccess2
    exTxInitiated rfl rfl
  refine ⟨h.1, ?_⟩
  rw [h.2.1]
  decide

/-- C1 counterexample: the stored transaction for `"crid1"` is already in
the terminal status `"cancelled"`, yet processing a (re-delivered) success
callback for the same checkout-request id moves it to `"completed"`,
creates a shipping order for the snapshotted cart line and removes that
line from the cart — the handler is not a no-op on terminal transactions. -/
theorem callback_redelivery_counterexample :
    exTxCancelled.status = "cancelled"
      ∧ ((mpesa_callback noFail exState exCbSuccess).1.transactions.map
          (fun t => t.status) = ["completed"])
      ∧ (mpesa_callback noFail exState exCbSuccess).1.shipping_orders.length
          = 1
      ∧ exState.shipping_orders.length = 0
      ∧ (mpesa_callback noFail exState exCbSuccess).1.cart_items = []
      ∧ exState.cart_items = [exCartItem] := by
  refine ⟨rfl, by decide, by decide, rfl, by decide, rfl⟩

/-- C1 amended: the handler never consults the transaction's current
status — a re-delivered callback is processed exactly like the first, so a
terminal transaction can even change status (e.g. cancelled → completed,
as the counterexample shows).  The no-op behaviour the claim describes
holds only for the cart/order side effects, and only in the state a first
successful delivery leaves behind: when no selected line id remains in the
user's cart, a re-delivered success callback creates no shipping order and
removes no cart line, while still (re)writing the status `"completed"`. -/
theorem callback_redelivery_amended (s : DBState) (cb : StkCallback)
    (tx : PaymentTransaction)
    (htx : get_payment_transaction_by_checkout_request_id s
      cb.checkout_request_i_d = some tx)
    (hcode : cb.result_code = 0)
    (hclean : select_items tx (get_cart_items s tx.user_id) = []) :
    ((mpesa_callback noFail s cb).1.shipping_orders = s.shipping_orders)
      ∧ ((mpesa_callback noFail s cb).1.cart_items = s.cart_items)
      ∧ (∀ t ∈ (mpesa_callback noFail s cb).1.transactions,
          t.checkout_request_id = cb.checkout_request_i_d →
            t.status = "completed") := by
  have hnf := mpesa_callback_success_normal_form s cb tx htx hcode
  rw [hclean] at hnf
  simp only [List.foldl_nil] at hnf
  refine ⟨by rw [hnf]; rfl, by rw [hnf]; rfl, ?_⟩
  intro t ht hcrid
  rw [hnf] at ht
  simp only [update_payment_transaction, List.mem_map] at ht
  obtain ⟨t0, ht0, rfl⟩ := ht
  by_cases hm : (t0.checkout_request_id == cb.checkout_request_i_d) = true
  · simp only [hm, if_true]
  · rw [Bool.not_eq_true] at hm
    simp only [hm, Bool.false_eq_true, if_false] at hcrid
    exact absurd hcrid (by simpa using hm)

/-- C1 amended witness: in the post-settlement state (transaction
completed, snapshotted line already removed from the cart), re-delivering
the success callback creates no order and removes nothing. -/
theorem callback_redelivery_amended_witness :
    ((mpesa_callback noFail exStateSettled exCbSuccess).1.shipping_orders
        = exStateSettled.shipping_orders)
      ∧ ((mpesa_callback noFail exStateSettled exCbSuccess).1.cart_items
          = exStateSettled.cart_items) := by
  have h := callback_redelivery_amended exStateSettled exCbSuccess
    exTxCompleted rfl rfl (by decide)
  exact ⟨h.1, h.2.1⟩

/-- The validation if-chain equals the three-format disjunction on the
same (cleaned) character list: the three length guards are mutually
exclusive. -/
theorem valid_iff_clean_format (l : List Char) :
    (if "07".toList.isPrefixOf l && l.length == 10 then l.all Char.isDigit
     else if "254".toList.isPrefixOf l && l.length == 12 then
       l.all Char.isDigit
     else if "+254".toList.isPrefixOf l && l.length == 13 then
       (l.drop 1).all Char.isDigit
     else false)
    = (("07".toList.isPrefixOf l && l.length == 10 && l.all Char.isDigit)
       || ("254".toList.isPrefixOf l && l.length == 12 && l.all Char.isDigit)
       || ("+254".toList.isPrefixOf l && l.length == 13
            && (l.drop 1).all Char.isDigit)) := by
  by_cases h10 : l.length = 10 <;>
    by_cases h12 : l.length = 12 <;>
      by_cases h13 : l.length = 13 <;>
        first
          | omega
          | (cases hp1 : "07".toList.isPrefixOf l <;>
              cases hp2 : "254".toList.isPrefixOf l <;>
                cases hp3 : "+254".toList.isPrefixOf l <;>
                  simp_all)

/-- C8 counterexample: `"0712 345 678"` is not one of the three formats
the claim lists (it contains spaces and has 12 characters), yet the
validation accepts it, because the code first strips spaces, dashes and
parentheses. -/
theorem phone_validation_counterexample :
    is_valid_kenyan_phone "0712 345 678" = true
      ∧ matches_spec_format "0712 345 678" = false := by
  exact ⟨by decide, by decide⟩

/-- C8 amended: validation accepts a phone string iff the string with
spaces, dashes and parentheses removed is one of the three formats
`07XXXXXXXX`, `254XXXXXXXXX`, `+254XXXXXXXXX`; any string rejected by the
validation is refused by checkout before any side effect. -/
theorem phone_validation_amended (phone : String) :
    (is_valid_kenyan_phone phone
        = matches_spec_format (String.mk (clean_kenyan_phone phone)))
      ∧ (∀ gw s user_id amount sel,
          is_valid_kenyan_phone phone = false →
            checkout gw s user_id phone amount sel
              = (s, CheckoutOutcome.invalidPhone)) := by
  constructor
  · exact valid_iff_clean_format (clean_kenyan_phone phone)
  · intro gw s user_id amount sel hinv
    simp [checkout, hinv]

/-- C8 witness: `"123"` is rejected and checkout returns the state
unchanged. -/
theorem phone_validation_amended_witness :
    (is_valid_kenyan_phone "123"
        = matches_spec_format (String.mk (clean_kenyan_phone "123")))
      ∧ (checkout GatewayBehavior.pushErr exState 1 "123" 5 none
          = (exState, CheckoutOutcome.invalidPhone)) := by
  have h := phone_validation_amended "123"
  exact ⟨h.1, h.2 GatewayBehavior.pushErr exState 1 5 none (by decide)⟩

end FarmersMarket
